import Mathlib

/-!
Verification of the Prometheus server-metrics listener of AdGuardDNS
(`internal/dnsserver/prometheus/server.go`).

The listener (`ServerMetricsListener`) translates five DNS-server lifecycle
events into Prometheus counter increments and histogram observations.  We
embed the metric registry as an explicit state (`MetricsState`): a counter
vector is a function from its label tuple to `Nat`, a histogram vector is a
function from its label tuple to the list of observed values (in `ℚ`).  The
pre-bound QUIC address-validation counters are plain `Nat` fields, since the
code binds their single `hit` label once at initialization
(`quicAddrValidationCacheLookups.WithLabelValues`).

Go panics (`Must*FromContext` on a missing context field) are modelled by
returning the state accumulated so far paired with `false`; a normal return
pairs the final state with `true`.
-/

/-- Identity of the logical server instance.  Modelled from the spec:
`dnsserver.ServerInfo` is not under `src/`; §3 of the spec describes it as
the server name, protocol, network family and bind address. -/
structure ServerInfo where
  name : String
  proto : String
  network : String
  addr : String
deriving DecidableEq, Repr

/-- Derived facts about the request/response pair.  Modelled from the spec:
`dnsserver.RequestInfo` is not under `src/`; §3 describes the fields this
core reads: request byte size and response byte size. -/
structure RequestInfo where
  requestSize : Nat
  responseSize : Nat
deriving DecidableEq, Repr

/-- The parts of a DNS message (`dns.Msg`) that this core reads: the numeric
response code (`resp.Rcode`, a Go `int`), and, for label derivation from the
request message, the query type and the address family of the query. -/
structure Msg where
  rcode : Int
  qtype : String
  family : String
deriving DecidableEq, Repr

/-- The part of `dnsserver.ResponseWriter` consumed by label derivation:
the local (bind) address actually used.  Modelled from the spec: §6 says the
response-writer handle is consumed only for label derivation. -/
structure ResponseWriter where
  localAddr : String
deriving DecidableEq, Repr

/-- Ambient per-request context.  The three fields the hooks extract with
`dnsserver.MustServerInfoFromContext`, `MustStartTimeFromContext` and
`MustRequestInfoFromContext`; a missing field makes the extraction panic. -/
structure Ctx where
  serverInfo : Option ServerInfo
  startTime : Option ℚ
  requestInfo : Option RequestInfo

/-- Label tuple of the `requestTotal` counter vector, declared in
`server.go` with label names `name, proto, network, addr, type, family`. -/
structure RequestLabels where
  name : String
  proto : String
  network : String
  addr : String
  qtype : String
  family : String
deriving DecidableEq, Repr

/-- Label tuple of every server-level metric vector, declared in `server.go`
with label names `name, proto, addr`. -/
structure ServerLabels where
  name : String
  proto : String
  addr : String
deriving DecidableEq, Repr

/-- Label names of the `requestTotal` counter vector (`server.go` line 88). -/
def requestTotalLabelNames : List String :=
  ["name", "proto", "network", "addr", "type", "family"]

/-- Label names of the server-level vectors (`server.go` lines 95 ff.). -/
def serverLabelNames : List String := ["name", "proto", "addr"]

/-- Bucket boundaries of the `requestSize` histogram (`server.go` 102–104). -/
def requestSizeBuckets : List ℚ := [0, 50, 100, 200, 300, 511, 1023, 4095, 8291]

/-- Bucket boundaries of the `responseSize` histogram (`server.go` 112–114). -/
def responseSizeBuckets : List ℚ := [0, 50, 100, 200, 300, 511, 1023, 4095, 8291]

/-- The non-cumulative histogram bucket an observed value falls into, as the
pair of the two consecutive boundaries `(lo, hi)` with `lo < v ≤ hi`;
Prometheus counts an observation in every cumulative bucket whose upper
boundary is at least the value, so the first such pair is the bucket the
observation adds to beyond the lower buckets. -/
def bucketInterval : List ℚ → ℚ → Option (ℚ × ℚ)
  | lo :: hi :: rest, v =>
    if lo < v ∧ v ≤ hi then some (lo, hi) else bucketInterval (hi :: rest) v
  | _, _ => none

/-- The state of the metric registry declared in `server.go` lines 82–157:
each counter vector as a function from its label tuple to its value, each
histogram vector as a function from its label tuple to the list of observed
values, and the two pre-bound QUIC address-validation counters. -/
structure MetricsState where
  requestTotal : RequestLabels → Nat
  requestDuration : ServerLabels → List ℚ
  requestSize : ServerLabels → List ℚ
  responseSize : ServerLabels → List ℚ
  responseRCode : ServerLabels → String → Nat
  errorTotal : ServerLabels → Nat
  panicTotal : ServerLabels → Nat
  invalidMsgTotal : ServerLabels → Nat
  quicAddrValidationCacheLookupsHits : Nat
  quicAddrValidationCacheLookupsMisses : Nat

/-- The zero registry: all counters 0, all histograms empty. -/
def MetricsState.init : MetricsState where
  requestTotal := fun _ => 0
  requestDuration := fun _ => []
  requestSize := fun _ => []
  responseSize := fun _ => []
  responseRCode := fun _ _ => 0
  errorTotal := fun _ => 0
  panicTotal := fun _ => 0
  invalidMsgTotal := fun _ => 0
  quicAddrValidationCacheLookupsHits := 0
  quicAddrValidationCacheLookupsMisses := 0

/-- Increment of one label of a counter vector (`.Inc()` on the child bound
to label tuple `l`). -/
def incCounter {α : Type} [DecidableEq α] (f : α → Nat) (l : α) : α → Nat :=
  fun x => if x = l then f x + 1 else f x

/-- Increment of one label pair of the `responseRCode` counter vector. -/
def incRCodeCounter (f : ServerLabels → String → Nat) (l : ServerLabels)
    (r : String) : ServerLabels → String → Nat :=
  fun x y => if x = l ∧ y = r then f x y + 1 else f x y

/-- Observation of a value on one label of a histogram vector
(`.Observe(v)` on the child bound to label tuple `l`). -/
def observeHist (f : ServerLabels → List ℚ) (l : ServerLabels) (v : ℚ) :
    ServerLabels → List ℚ :=
  fun x => if x = l then f x ++ [v] else f x

/-- Label derivation for `requestTotal`.  Modelled from the spec: the helper
`counterWithRequestLabels` is not under `src/`; §4.1 says the labels are the
server name, transport protocol, network family, client/bind address, query
type and address family of the query, and §6 says the response writer
supplies the local address actually used. -/
def requestLabels (si : ServerInfo) (req : Msg) (rw : ResponseWriter) :
    RequestLabels :=
  { name := si.name, proto := si.proto, network := si.network
    addr := rw.localAddr, qtype := req.qtype, family := req.family }

/-- Label derivation for the server-level vectors.  Modelled from the spec:
the helpers `histogramWithServerLabels`, `counterWithServerLabels` and
`counterWithServerLabelsPlusRCode` are not under `src/`; §4.2 says they use
the (server-name, protocol, address) tuple of the server. -/
def serverLabels (si : ServerInfo) : ServerLabels :=
  { name := si.name, proto := si.proto, addr := si.addr }

/-- Fixed lookup of the standard mnemonic of a numeric DNS response code.
Modelled from the spec: `rCodeToString`'s definition is not under `src/`;
§4.2 says known codes map to their standard mnemonic strings
(0 → NOERROR, 2 → SERVFAIL, 3 → NXDOMAIN, …). -/
def rcodeMnemonic : Int → Option String
  | 0 => some "NOERROR"
  | 1 => some "FORMERR"
  | 2 => some "SERVFAIL"
  | 3 => some "NXDOMAIN"
  | 4 => some "NOTIMP"
  | 5 => some "REFUSED"
  | 6 => some "YXDOMAIN"
  | 7 => some "YXRRSET"
  | 8 => some "NXRRSET"
  | 9 => some "NOTAUTH"
  | 10 => some "NOTZONE"
  | _ => none

/-- Textual response-code label.  Modelled from the spec: known codes yield
their mnemonic; any other code falls back to the numeric value rendered as a
decimal string (the spec's §9 note fixes the format as a decimal string). -/
def rCodeToString (c : Int) : String :=
  (rcodeMnemonic c).getD (toString c)

/-- Embedding of `ServerMetricsListener.OnRequest` (`server.go` 22–51).
Returns the updated registry paired with `true` on a normal return, or the
registry as updated so far paired with `false` when a `Must*FromContext`
extraction panics.  `now` stands for the clock reading used by
`time.Since(startTime)`. -/
def OnRequest (ctx : Ctx) (req : Msg) (resp : Option Msg)
    (rw : ResponseWriter) (now : ℚ) (s : MetricsState) : MetricsState × Bool :=
  match ctx.serverInfo with
  | none => (s, false)
  | some serverInfo =>
    match ctx.startTime with
    | none => (s, false)
    | some startTime =>
      let s := { s with
        requestTotal := incCounter s.requestTotal (requestLabels serverInfo req rw) }
      let elapsed := now - startTime
      let s := { s with
        requestDuration := observeHist s.requestDuration (serverLabels serverInfo) elapsed }
      match ctx.requestInfo with
      | none => (s, false)
      | some ri =>
        let s := { s with
          requestSize := observeHist s.requestSize (serverLabels serverInfo)
            (ri.requestSize : ℚ) }
        match resp with
        | some m =>
          let s := { s with
            responseSize := observeHist s.responseSize (serverLabels serverInfo)
              (ri.responseSize : ℚ) }
          ({ s with
            responseRCode := incRCodeCounter s.responseRCode
              (serverLabels serverInfo) (rCodeToString m.rcode) }, true)
        | none =>
          ({ s with
            responseRCode := incRCodeCounter s.responseRCode
              (serverLabels serverInfo) "DROPPED" }, true)

/-- Embedding of `ServerMetricsListener.OnInvalidMsg` (`server.go` 55–57). -/
def OnInvalidMsg (ctx : Ctx) (s : MetricsState) : MetricsState × Bool :=
  match ctx.serverInfo with
  | none => (s, false)
  | some si =>
    ({ s with invalidMsgTotal := incCounter s.invalidMsgTotal (serverLabels si) }, true)

/-- Embedding of `ServerMetricsListener.OnError` (`server.go` 61–63); the
error argument is ignored by the code (blank parameter `_ error`). -/
def OnError (ctx : Ctx) (_e : String) (s : MetricsState) : MetricsState × Bool :=
  match ctx.serverInfo with
  | none => (s, false)
  | some si =>
    ({ s with errorTotal := incCounter s.errorTotal (serverLabels si) }, true)

/-- Embedding of `ServerMetricsListener.OnPanic` (`server.go` 67–69); the
recovered value is ignored by the code (blank parameter `_ any`). -/
def OnPanic (ctx : Ctx) (_v : String) (s : MetricsState) : MetricsState × Bool :=
  match ctx.serverInfo with
  | none => (s, false)
  | some si =>
    ({ s with panicTotal := incCounter s.panicTotal (serverLabels si) }, true)

/-- Embedding of `ServerMetricsListener.OnQUICAddressValidation`
(`server.go` 73–79): increments one of the two pre-bound counters. -/
def OnQUICAddressValidation (hit : Bool) (s : MetricsState) : MetricsState :=
  if hit then
    { s with quicAddrValidationCacheLookupsHits :=
        s.quicAddrValidationCacheLookupsHits + 1 }
  else
    { s with quicAddrValidationCacheLookupsMisses :=
        s.quicAddrValidationCacheLookupsMisses + 1 }

/-- A sequence of QUIC address-validation lookups, applied left to right. -/
def runQUICLookups (bs : List Bool) (s : MetricsState) : MetricsState :=
  bs.foldl (fun acc b => OnQUICAddressValidation b acc) s

/-- C1: every invocation of `OnRequest` on a context carrying server info,
start time and request info — whatever the outcome, response present or
absent — increments the `requestTotal` counter by exactly 1 at the full
six-value label tuple (server name, transport protocol, network family,
local address, query type, address family of the query) and changes no
other label of it; the vector's label schema is the six declared names. -/
theorem onRequest_requestTotal_inc (si : ServerInfo) (st : ℚ) (ri : RequestInfo)
    (req : Msg) (resp : Option Msg) (rw : ResponseWriter) (now : ℚ)
    (s : MetricsState) :
    (∀ l, ((OnRequest ⟨some si, some st, some ri⟩ req resp rw now s).1).requestTotal l
        = if l = requestLabels si req rw then s.requestTotal l + 1
          else s.requestTotal l)
    ∧ requestLabels si req rw =
        ⟨si.name, si.proto, si.network, rw.localAddr, req.qtype, req.family⟩
    ∧ requestTotalLabelNames =
        ["name", "proto", "network", "addr", "type", "family"] := by
  refine ⟨fun l => ?_, rfl, rfl⟩
  cases resp <;> rfl

/-- C2: when a response message with numeric code `m.rcode` is present, the
`responseSize` histogram is observed with the response byte size at the
server labels (and no other label), and the `responseRCode` counter at the
label derived by `rCodeToString` increments by exactly 1 while every other
label pair of it is unchanged. -/
theorem onRequest_response_present (si : ServerInfo) (st : ℚ) (ri : RequestInfo)
    (req m : Msg) (rw : ResponseWriter) (now : ℚ) (s : MetricsState) :
    (∀ l, (OnRequest ⟨some si, some st, some ri⟩ req (some m) rw now s).1.responseSize l
        = if l = serverLabels si then s.responseSize l ++ [(ri.responseSize : ℚ)]
          else s.responseSize l)
    ∧ (∀ l r, (OnRequest ⟨some si, some st, some ri⟩ req (some m) rw now s).1.responseRCode l r
        = if l = serverLabels si ∧ r = rCodeToString m.rcode
          then s.responseRCode l r + 1 else s.responseRCode l r) :=
  ⟨fun _ => rfl, fun _ _ => rfl⟩

/-- C3: when the response message is absent, the `responseRCode` counter at
the literal sentinel label `"DROPPED"` increments by exactly 1 (no other
label pair changes), the `responseSize` histogram is not observed at all,
and the `requestSize` histogram is observed with the request byte size. -/
theorem onRequest_response_absent (si : ServerInfo) (st : ℚ) (ri : RequestInfo)
    (req : Msg) (rw : ResponseWriter) (now : ℚ) (s : MetricsState) :
    (OnRequest ⟨some si, some st, some ri⟩ req none rw now s).1.responseSize
        = s.responseSize
    ∧ (∀ l, (OnRequest ⟨some si, some st, some ri⟩ req none rw now s).1.requestSize l
        = if l = serverLabels si then s.requestSize l ++ [(ri.requestSize : ℚ)]
          else s.requestSize l)
    ∧ (∀ l r, (OnRequest ⟨some si, some st, some ri⟩ req none rw now s).1.responseRCode l r
        = if l = serverLabels si ∧ r = "DROPPED"
          then s.responseRCode l r + 1 else s.responseRCode l r) :=
  ⟨rfl, fun _ => rfl, fun _ _ => rfl⟩

/-- Running a lookup sequence adds the number of `true` arguments to the
pre-bound hits counter. -/
theorem runQUICLookups_hits (bs : List Bool) : ∀ s : MetricsState,
    (runQUICLookups bs s).quicAddrValidationCacheLookupsHits
      = s.quicAddrValidationCacheLookupsHits + bs.count true := by
  induction bs with
  | nil => intro s; rfl
  | cons b bs ih =>
    intro s
    have h1 : runQUICLookups (b :: bs) s
        = runQUICLookups bs (OnQUICAddressValidation b s) := rfl
    rw [h1, ih]
    cases b <;> (simp [OnQUICAddressValidation, List.count_cons]; try omega)

/-- Running a lookup sequence adds the number of `false` arguments to the
pre-bound misses counter. -/
theorem runQUICLookups_misses (bs : List Bool) : ∀ s : MetricsState,
    (runQUICLookups bs s).quicAddrValidationCacheLookupsMisses
      = s.quicAddrValidationCacheLookupsMisses + bs.count false := by
  induction bs with
  | nil => intro s; rfl
  | cons b bs ih =>
    intro s
    have h1 : runQUICLookups (b :: bs) s
        = runQUICLookups bs (OnQUICAddressValidation b s) := rfl
    rw [h1, ih]
    cases b <;> (simp [OnQUICAddressValidation, List.count_cons]; try omega)

/-- C4: a `true` lookup increments only the pre-bound hits counter and a
`false` lookup only the pre-bound misses counter (all other registry state
unchanged, no label computation: the counters are plain pre-bound cells);
over any sequence of lookups each counter is monotonically non-decreasing
and ends at its start value plus the number of calls with its boolean. -/
theorem onQUICAddressValidation_correct (s : MetricsState) (bs : List Bool) :
    OnQUICAddressValidation true s
      = { s with quicAddrValidationCacheLookupsHits :=
            s.quicAddrValidationCacheLookupsHits + 1 }
    ∧ OnQUICAddressValidation false s
      = { s with quicAddrValidationCacheLookupsMisses :=
            s.quicAddrValidationCacheLookupsMisses + 1 }
    ∧ (runQUICLookups bs s).quicAddrValidationCacheLookupsHits
        = s.quicAddrValidationCacheLookupsHits + bs.count true
    ∧ (runQUICLookups bs s).quicAddrValidationCacheLookupsMisses
        = s.quicAddrValidationCacheLookupsMisses + bs.count false
    ∧ s.quicAddrValidationCacheLookupsHits
        ≤ (runQUICLookups bs s).quicAddrValidationCacheLookupsHits
    ∧ s.quicAddrValidationCacheLookupsMisses
        ≤ (runQUICLookups bs s).quicAddrValidationCacheLookupsMisses := by
  refine ⟨rfl, rfl, runQUICLookups_hits bs s, runQUICLookups_misses bs s, ?_, ?_⟩
  · rw [runQUICLookups_hits bs s]; omega
  · rw [runQUICLookups_misses bs s]; omega

/-- C6: each hook that requires ambient context fields returns normally
exactly when all the fields it requires are present — `OnRequest` requires
server info, start time and request info; `OnInvalidMsg`, `OnError` and
`OnPanic` require server info — and otherwise aborts (second component
`false`, the model of the `Must*FromContext` panic). -/
theorem hooks_fail_loudly_on_missing_context (ctx : Ctx) (req : Msg)
    (resp : Option Msg) (rw : ResponseWriter) (now : ℚ) (s : MetricsState)
    (e v : String) :
    ((OnRequest ctx req resp rw now s).2 = true ↔
        ctx.serverInfo.isSome = true ∧ ctx.startTime.isSome = true
          ∧ ctx.requestInfo.isSome = true)
    ∧ ((OnInvalidMsg ctx s).2 = true ↔ ctx.serverInfo.isSome = true)
    ∧ ((OnError ctx e s).2 = true ↔ ctx.serverInfo.isSome = true)
    ∧ ((OnPanic ctx v s).2 = true ↔ ctx.serverInfo.isSome = true) := by
  obtain ⟨sio, sto, rio⟩ := ctx
  cases sio <;> cases sto <;> cases rio <;> cases resp <;>
    simp [OnRequest, OnInvalidMsg, OnError, OnPanic]

/-- C8: `OnInvalidMsg` increments the `invalidMsgTotal` counter by exactly 1
at the server-level label tuple (no per-query labels exist on this vector,
whose schema is `serverLabelNames`), leaves its other labels unchanged, and
changes no other counter or histogram of the registry. -/
theorem onInvalidMsg_effect (si : ServerInfo) (sto : Option ℚ)
    (rio : Option RequestInfo) (s : MetricsState) :
    (∀ l, (OnInvalidMsg ⟨some si, sto, rio⟩ s).1.invalidMsgTotal l
        = if l = serverLabels si then s.invalidMsgTotal l + 1
          else s.invalidMsgTotal l)
    ∧ serverLabelNames = ["name", "proto", "addr"]
    ∧ (OnInvalidMsg ⟨some si, sto, rio⟩ s).1.requestTotal = s.requestTotal
    ∧ (OnInvalidMsg ⟨some si, sto, rio⟩ s).1.requestDuration = s.requestDuration
    ∧ (OnInvalidMsg ⟨some si, sto, rio⟩ s).1.requestSize = s.requestSize
    ∧ (OnInvalidMsg ⟨some si, sto, rio⟩ s).1.responseSize = s.responseSize
    ∧ (OnInvalidMsg ⟨some si, sto, rio⟩ s).1.responseRCode = s.responseRCode
    ∧ (OnInvalidMsg ⟨some si, sto, rio⟩ s).1.errorTotal = s.errorTotal
    ∧ (OnInvalidMsg ⟨some si, sto, rio⟩ s).1.panicTotal = s.panicTotal
    ∧ (OnInvalidMsg ⟨some si, sto, rio⟩ s).1.quicAddrValidationCacheLookupsHits
        = s.quicAddrValidationCacheLookupsHits
    ∧ (OnInvalidMsg ⟨some si, sto, rio⟩ s).1.quicAddrValidationCacheLookupsMisses
        = s.quicAddrValidationCacheLookupsMisses :=
  ⟨fun _ => rfl, rfl, rfl, rfl, rfl, rfl, rfl, rfl, rfl, rfl, rfl⟩

/-- C9: `OnError` produces the same registry effect whatever the error
value, and `OnPanic` whatever the recovered value — neither value is
inspected or used as a label — and each increments its server-level-labeled
counter by exactly 1 (other labels unchanged). -/
theorem onError_onPanic_value_independent (ctx : Ctx) (si : ServerInfo)
    (sto : Option ℚ) (rio : Option RequestInfo) (e₁ e₂ v₁ v₂ : String)
    (s : MetricsState) :
    OnError ctx e₁ s = OnError ctx e₂ s
    ∧ OnPanic ctx v₁ s = OnPanic ctx v₂ s
    ∧ (∀ l, (OnError ⟨some si, sto, rio⟩ e₁ s).1.errorTotal l
        = if l = serverLabels si then s.errorTotal l + 1 else s.errorTotal l)
    ∧ (∀ l, (OnPanic ⟨some si, sto, rio⟩ v₁ s).1.panicTotal l
        = if l = serverLabels si then s.panicTotal l + 1 else s.panicTotal l) := by
  obtain ⟨sio, sto2, rio2⟩ := ctx
  refine ⟨?_, ?_, fun _ => rfl, fun _ => rfl⟩ <;> cases sio <;> rfl

/-- C10: when the context carries server info and start time but no request
info, `OnRequest` aborts (second component `false`) only after having
incremented `requestTotal` and observed `requestDuration`; the partial
update leaves `requestSize`, `responseSize` and `responseRCode` untouched. -/
theorem onRequest_partial_update_on_missing_requestInfo (si : ServerInfo)
    (st : ℚ) (req : Msg) (resp : Option Msg) (rw : ResponseWriter) (now : ℚ)
    (s : MetricsState) :
    (OnRequest ⟨some si, some st, none⟩ req resp rw now s).2 = false
    ∧ (∀ l, (OnRequest ⟨some si, some st, none⟩ req resp rw now s).1.requestTotal l
        = if l = requestLabels si req rw then s.requestTotal l + 1
          else s.requestTotal l)
    ∧ (∀ l, (OnRequest ⟨some si, some st, none⟩ req resp rw now s).1.requestDuration l
        = if l = serverLabels si then s.requestDuration l ++ [now - st]
          else s.requestDuration l)
    ∧ (OnRequest ⟨some si, some st, none⟩ req resp rw now s).1.requestSize
        = s.requestSize
    ∧ (OnRequest ⟨some si, some st, none⟩ req resp rw now s).1.responseSize
        = s.responseSize
    ∧ (OnRequest ⟨some si, some st, none⟩ req resp rw now s).1.responseRCode
        = s.responseRCode :=
  ⟨rfl, fun _ => rfl, fun _ => rfl, rfl, rfl, rfl⟩

/-- The fuel-based digit accumulator never empties a non-empty accumulator. -/
theorem toDigitsCore_ne_nil_of_ne_nil (b : Nat) :
    ∀ (f n : Nat) (ds : List Char), ds ≠ [] → Nat.toDigitsCore b f n ds ≠ [] := by
  intro f
  induction f with
  | zero => intro n ds h; simpa [Nat.toDigitsCore] using h
  | succ f ih =>
    intro n ds h
    simp only [Nat.toDigitsCore]
    split
    · simp
    · exact ih _ _ (by simp)

/-- The decimal digit list of a natural number is never empty. -/
theorem toDigits_ne_nil (b n : Nat) : Nat.toDigits b n ≠ [] := by
  unfold Nat.toDigits
  simp only [Nat.toDigitsCore]
  split
  · simp
  · exact toDigitsCore_ne_nil_of_ne_nil b n _ _ (by simp)

/-- The decimal string of a natural number is never empty. -/
theorem nat_repr_ne_empty (n : Nat) : Nat.repr n ≠ "" := by
  unfold Nat.repr
  intro h
  have h2 := congrArg String.length h
  rw [List.length_asString] at h2
  exact toDigits_ne_nil 10 n (List.length_eq_zero.mp h2)

/-- The decimal string of an integer is never empty. -/
theorem int_toString_ne_empty (c : Int) : toString c ≠ "" := by
  cases c with
  | ofNat m => exact nat_repr_ne_empty m
  | negSucc m =>
    show "-" ++ toString (m + 1) ≠ ""
    intro h
    have h2 := congrArg String.length h
    rw [String.length_append] at h2
    have h3 : ("-".length) = 1 := rfl
    have h4 : ("".length) = 0 := rfl
    omega

/-- Every mnemonic in the fixed response-code lookup is non-empty. -/
theorem rcodeMnemonic_ne_empty (c : Int) (s : String)
    (h : rcodeMnemonic c = some s) : s ≠ "" := by
  unfold rcodeMnemonic at h
  split at h <;> (try exact Option.noConfusion h) <;>
    (injection h with h2; subst h2; decide)

/-- C5: the response-code label mapping is total and stable: a code in the
fixed lookup yields its standard mnemonic (in particular 0 → NOERROR,
2 → SERVFAIL, 3 → NXDOMAIN), a code outside it falls back to the decimal
rendering of the numeric value, and the label is non-empty for every code,
so the counter update is never skipped. -/
theorem rCodeToString_total_and_stable :
    (∀ c s, rcodeMnemonic c = some s → rCodeToString c = s)
    ∧ rCodeToString 0 = "NOERROR"
    ∧ rCodeToString 2 = "SERVFAIL"
    ∧ rCodeToString 3 = "NXDOMAIN"
    ∧ (∀ c, rcodeMnemonic c = none → rCodeToString c = toString c)
    ∧ (∀ c, rCodeToString c ≠ "") := by
  refine ⟨?_, rfl, rfl, rfl, ?_, ?_⟩
  · intro c s h; unfold rCodeToString; rw [h, Option.getD_some]
  · intro c h; unfold rCodeToString; rw [h, Option.getD_none]
  · intro c
    rcases h : rcodeMnemonic c with _ | s
    · have hn : rCodeToString c = toString c := by
        unfold rCodeToString; rw [h, Option.getD_none]
      rw [hn]; exact int_toString_ne_empty c
    · have hs : rCodeToString c = s := by
        unfold rCodeToString; rw [h, Option.getD_some]
      rw [hs]; exact rcodeMnemonic_ne_empty c s h

/-- Witness for C5 at concrete codes: 0 is in the lookup and yields its
mnemonic; 99 is outside the lookup, falls back to the decimal string and is
non-empty. -/
theorem rCodeToString_total_and_stable_witness :
    (rcodeMnemonic 0 = some "NOERROR" ∧ rCodeToString 0 = "NOERROR")
    ∧ (rcodeMnemonic 99 = none ∧ rCodeToString 99 = toString (99 : Int))
    ∧ rCodeToString 99 ≠ "" :=
  ⟨⟨rfl, rCodeToString_total_and_stable.1 0 "NOERROR" rfl⟩,
   ⟨rfl, rCodeToString_total_and_stable.2.2.2.2.1 99 rfl⟩,
   rCodeToString_total_and_stable.2.2.2.2.2 99⟩

/-- C7: the request-size and response-size histograms are declared with the
fixed bucket boundaries 0, 50, 100, 200, 300, 511, 1023, 4095, 8291; in a
completed request with request size 64 and response size 128, the hooks
observe 64 into the request-size histogram — which falls in the (50, 100]
bucket — and 128 into the response-size histogram — which falls in the
(100, 200] bucket. -/
theorem sizeHistogram_buckets (si : ServerInfo) (st : ℚ) (req m : Msg)
    (rw : ResponseWriter) (now : ℚ) (s : MetricsState) :
    requestSizeBuckets = [0, 50, 100, 200, 300, 511, 1023, 4095, 8291]
    ∧ responseSizeBuckets = [0, 50, 100, 200, 300, 511, 1023, 4095, 8291]
    ∧ (OnRequest ⟨some si, some st, some ⟨64, 128⟩⟩ req (some m) rw now s).1.requestSize
        (serverLabels si) = s.requestSize (serverLabels si) ++ [(64 : ℚ)]
    ∧ (OnRequest ⟨some si, some st, some ⟨64, 128⟩⟩ req (some m) rw now s).1.responseSize
        (serverLabels si) = s.responseSize (serverLabels si) ++ [(128 : ℚ)]
    ∧ bucketInterval requestSizeBuckets 64 = some (50, 100)
    ∧ bucketInterval responseSizeBuckets 128 = some (100, 200) := by
  refine ⟨rfl, rfl, ?_, ?_, by decide, by decide⟩
  · show observeHist s.requestSize (serverLabels si) ((64 : Nat) : ℚ)
        (serverLabels si) = s.requestSize (serverLabels si) ++ [(64 : ℚ)]
    rw [observeHist, if_pos rfl]
    norm_num
  · show observeHist s.responseSize (serverLabels si) ((128 : Nat) : ℚ)
        (serverLabels si) = s.responseSize (serverLabels si) ++ [(128 : ℚ)]
    rw [observeHist, if_pos rfl]
    norm_num
